import Mathlib

/-!
Shallow embedding of `src/data/macos/bundle.py`, a cx_Freeze macOS
bundling script, and proofs of the specification claims about it.

The script reads the environment variable `SCRIPT_NAME` (a possibly
absent string, modelled as `Option String`), builds two configuration
dictionaries (`options` and `boptions`), conditionally adds a
`custom_info_plist` entry to `boptions`, and calls `setup` with the
resulting arguments.  Python dictionaries with string keys are modelled
as insertion-ordered association lists `List (String × α)`; `%s`
formatting of a possibly-`None` value renders `None` as the text
`"None"`, as Python does.
-/

namespace Bundle

/-- Values occurring in the `build_exe` options dictionary of the script:
strings, booleans and (nested) lists. -/
inductive PyValue where
  | str : String → PyValue
  | pybool : Bool → PyValue
  | list : List PyValue → PyValue
  deriving Repr

/-- Python `"%s" % x` applied to the result of `getenv`: an absent value
(`None`) renders as the literal text `"None"`, a present string renders
as itself. -/
def pyFormat : Option String → String
  | none => "None"
  | some s => s

/-- Lookup in an association-list model of a Python dict:
`d.get(k)`, returning the value of the first (and only) binding of `k`. -/
def dictGet (d : List (String × String)) (k : String) : Option String :=
  (d.find? (fun p => p.1 = k)).map Prod.snd

/-- Python dict assignment `d[k] = v`: replace the value of an existing
binding in place, otherwise append the new binding at the end
(insertion order). -/
def dictSet (d : List (String × String)) (k v : String) :
    List (String × String) :=
  if (d.find? (fun p => p.1 = k)).isSome then
    d.map (fun p => if p.1 = k then (k, v) else p)
  else
    d ++ [(k, v)]

/-- The static `options` dict of the script (lines 19-24): the
`build_exe` options passed to `setup`.  It is a module-level constant in
the source, mentioning no environment data. -/
def options : List (String × PyValue) :=
  [ ("zip_include_packages", PyValue.list [PyValue.str "*"]),
    ("zip_exclude_packages", PyValue.list [PyValue.str "PyQt5"]),
    ("replace_paths",
      PyValue.list [PyValue.list
        [PyValue.str "*", PyValue.str "@executable_path/"]]),
    ("optimize", PyValue.pybool true) ]

/-- The initial `boptions` dict of the script (lines 26-28), before the
conditional branch. -/
def boptionsInit : List (String × String) :=
  [("iconfile", "./resources/ico/carla.icns")]

/-- Python `SCRIPT_NAME in ("Carla", "Carla-Control")` (line 30), where
`SCRIPT_NAME` is the result of `getenv` (`None` when unset; `None` is
not a member of the tuple). -/
def scriptNameRecognized (sname : Option String) : Prop :=
  sname = some "Carla" ∨ sname = some "Carla-Control"

instance (sname : Option String) : Decidable (scriptNameRecognized sname) :=
  inferInstanceAs (Decidable (_ ∨ _))

/-- The `boptions` dict as it stands after the conditional branch
(lines 26-31): the `bdist_mac` options passed to `setup`. -/
def boptions (sname : Option String) : List (String × String) :=
  if scriptNameRecognized sname then
    dictSet boptionsInit "custom_info_plist"
      ("./data/macos/" ++ pyFormat sname ++ "_Info.plist")
  else
    boptionsInit

/-- The argument of `Executable` on line 37:
`"./source/frontend/%s.pyw" % SCRIPT_NAME`. -/
def executablePath (sname : Option String) : String :=
  "./source/frontend/" ++ pyFormat sname ++ ".pyw"

/-- The keyword arguments of the `setup` call (lines 33-37).  The
`options` keyword is a dict with exactly the two keys `build_exe` and
`bdist_mac`; they are modelled as the two correspondingly named
fields. -/
structure SetupArgs where
  name : String
  version : String
  description : String
  build_exe : List (String × PyValue)
  bdist_mac : List (String × String)
  executables : List String
  deriving Repr

/-- The full setup call of the script, as a function of the value of
`VERSION` (imported from the external `carla_host` module, opaque to
this script) and of the environment's `SCRIPT_NAME` value. -/
def setupCall (version : String) (sname : Option String) : SetupArgs :=
  { name := "Carla"
    version := version
    description := "Carla Plugin Host"
    build_exe := options
    bdist_mac := boptions sname
    executables := [executablePath sname] }

/-- The configuration-construction phase of the script (everything from
line 17 up to but excluding the `setup` call), with a Python-exception
result type.  Every operation the script performs in this phase —
`getenv`, dict literals, tuple membership, dict key assignment and `%s`
formatting of a possibly-`None` value — is total for these operand
types, so the phase always returns `Except.ok`; any failure (e.g. a
missing executable file) can only arise inside the external `setup`
call. -/
def constructConfig (version : String) (sname : Option String) :
    Except String SetupArgs :=
  Except.ok (setupCall version sname)

end Bundle

open Bundle

/-- C1: for every run in which `SCRIPT_NAME` has a value `v`, the sole
element of the `executables` list given to `setup` is
`"./source/frontend/" ++ v ++ ".pyw"`. -/
theorem c1_executable_path (version v : String) :
    (setupCall version (some v)).executables =
      ["./source/frontend/" ++ v ++ ".pyw"] := by
  rfl

/-- C2: when `SCRIPT_NAME` is `"Carla"`, `boptions` maps
`"custom_info_plist"` to `"./data/macos/Carla_Info.plist"`. -/
theorem c2_carla_plist :
    dictGet (boptions (some "Carla")) "custom_info_plist" =
      some "./data/macos/Carla_Info.plist" := by
  decide

/-- C3: when `SCRIPT_NAME` is `"Carla-Control"`, `boptions` maps
`"custom_info_plist"` to `"./data/macos/Carla-Control_Info.plist"`. -/
theorem c3_carla_control_plist :
    dictGet (boptions (some "Carla-Control")) "custom_info_plist" =
      some "./data/macos/Carla-Control_Info.plist" := by
  decide

/-- C4: for every value of `SCRIPT_NAME` other than `"Carla"` and
`"Carla-Control"` (the unset case included), `boptions` contains no
`"custom_info_plist"` key. -/
theorem c4_no_plist_otherwise (sname : Option String)
    (h1 : sname ≠ some "Carla") (h2 : sname ≠ some "Carla-Control") :
    dictGet (boptions sname) "custom_info_plist" = none := by
  have hrec : ¬ scriptNameRecognized sname := by
    intro h
    rcases h with h | h
    · exact h1 h
    · exact h2 h
  simp [boptions, hrec, boptionsInit, dictGet]

/-- Witness for C4 at the concrete unrecognized value `"Carla-Plugin"`. -/
theorem c4_no_plist_otherwise_witness :
    dictGet (boptions (some "Carla-Plugin")) "custom_info_plist" = none :=
  c4_no_plist_otherwise (some "Carla-Plugin") (by decide) (by decide)

/-- C5: for every value of `SCRIPT_NAME` (unset included), `boptions`
maps `"iconfile"` to `"./resources/ico/carla.icns"`; no branch alters or
removes that entry. -/
theorem c5_iconfile_always (sname : Option String) :
    dictGet (boptions sname) "iconfile" =
      some "./resources/ico/carla.icns" := by
  by_cases h : scriptNameRecognized sname
  · simp [boptions, h, dictSet, boptionsInit, dictGet]
  · simp [boptions, h, boptionsInit, dictGet]

/-- C6: the `build_exe` options mapping passed to `setup` is static: for
any two runs with any two `SCRIPT_NAME` values (and any two `VERSION`
values) it is the identical mapping, with exactly the four listed
entries. -/
theorem c6_build_exe_static (v1 v2 : String) (s1 s2 : Option String) :
    (setupCall v1 s1).build_exe = (setupCall v2 s2).build_exe ∧
    (setupCall v1 s1).build_exe =
      [ ("zip_include_packages", PyValue.list [PyValue.str "*"]),
        ("zip_exclude_packages", PyValue.list [PyValue.str "PyQt5"]),
        ("replace_paths",
          PyValue.list [PyValue.list
            [PyValue.str "*", PyValue.str "@executable_path/"]]),
        ("optimize", PyValue.pybool true) ] :=
  ⟨rfl, rfl⟩

/-- C7: for every value of `SCRIPT_NAME`, the bundle name passed to
`setup` is the constant `"Carla"` and the version passed is exactly the
`VERSION` value imported from `carla_host`; neither depends on
`SCRIPT_NAME`. -/
theorem c7_name_and_version (version : String) (sname : Option String) :
    (setupCall version sname).name = "Carla" ∧
    (setupCall version sname).version = version :=
  ⟨rfl, rfl⟩

/-- C8: the script validates nothing: for every value of `SCRIPT_NAME`,
unset or unrecognized included, the configuration-construction phase
completes without raising, producing exactly the `setup` arguments; any
failure is deferred to the external packaging tool invoked by
`setup`. -/
theorem c8_construction_total (version : String) (sname : Option String) :
    constructConfig version sname = Except.ok (setupCall version sname) :=
  rfl

/-- C9: when `SCRIPT_NAME` is unset, `getenv` yields `None`, `%s`
formatting renders it as the text `"None"`, so the executable path
passed to the bundler is literally `"./source/frontend/None.pyw"` and no
`"custom_info_plist"` key is set; no error is raised in this script. -/
theorem c9_unset_renders_none (version : String) :
    (setupCall version none).executables = ["./source/frontend/None.pyw"] ∧
    dictGet (boptions none) "custom_info_plist" = none :=
  ⟨rfl, by decide⟩

/-- C10: for every value of `SCRIPT_NAME`, the `executables` list has
exactly one entry, and the keys of the final `boptions` mapping are
exactly `["iconfile", "custom_info_plist"]` when `SCRIPT_NAME` is
`"Carla"` or `"Carla-Control"`, and exactly `["iconfile"]` otherwise:
at most two keys, `"iconfile"` always present. -/
theorem c10_shape (version : String) (sname : Option String) :
    (setupCall version sname).executables.length = 1 ∧
    (boptions sname).map Prod.fst =
      (if scriptNameRecognized sname
        then ["iconfile", "custom_info_plist"]
        else ["iconfile"]) := by
  refine ⟨rfl, ?_⟩
  by_cases h : scriptNameRecognized sname
  · simp [boptions, h, dictSet, boptionsInit]
  · simp [boptions, h, boptionsInit]
